import Mathlib

/-!
Shallow embedding of the webhealthcheck health-evaluation and
history-retention engine (index.js and persistence.js) and proofs of its
specified properties.

Time instants are modelled as integer epoch milliseconds (JavaScript
`Date.getTime()` values). The real-valued slot quotient of the grid mapper
is modelled as a rational number.
-/

/-- The status strings 'healthy' / 'unhealthy' / 'unknown' used both for
history entries and for grid slots. -/
inductive Status where
  | healthy
  | unhealthy
  | unknown
deriving DecidableEq, Repr

/-- Failure reasons produced inside `checkDomain` by the thrown errors:
`HTTP <status>`, `Response time <rt>ms exceeds <limit>ms`,
`PHP Error detected in page content`, and transport-level errors carried
over from `makeHttpRequest` rejections. -/
inductive Reason where
  | httpStatus (code : Int)
  | slow (responseTime limitMs : Int)
  | php
  | transport (msg : String)
deriving DecidableEq, Repr

/-- Output of the health classification performed by `checkDomain`. -/
inductive Classification where
  | healthy
  | unhealthy (reason : Reason)
deriving DecidableEq, Repr

/-- The literal body marker checked in `checkDomain`:
`response.body.includes('A PHP Error was encountered')`. -/
def phpErrorMarker : List Char := "A PHP Error was encountered".toList

/-- JavaScript `haystack.includes(needle)`: the needle occurs as a
contiguous run somewhere in the haystack. -/
def listIncludes (needle : List Char) : List Char → Bool
  | [] => needle.isPrefixOf []
  | c :: rest => needle.isPrefixOf (c :: rest) || listIncludes needle rest

/-- The response-evaluation logic of `checkDomain` (index.js lines 133-146):
status outside 200..399 throws `HTTP <status>`, response time above
`timeoutSeconds * 1000` milliseconds throws the slow-response error, a body
containing the PHP error marker throws the PHP error; otherwise the check
succeeds. `timeoutMs` is `config.timeoutSeconds * 1000`. -/
def classify (timeoutMs : Int) (statusCode : Int) (responseTime : Int)
    (body : List Char) : Classification :=
  if statusCode < 200 ∨ 400 ≤ statusCode then
    .unhealthy (.httpStatus statusCode)
  else if timeoutMs < responseTime then
    .unhealthy (.slow responseTime timeoutMs)
  else if listIncludes phpErrorMarker body then
    .unhealthy .php
  else
    .healthy

/-- Per-domain mutable state kept in the `healthState` map. -/
structure HState where
  status : Status
  lastCheck : Option Int
  lastError : Option Reason
  consecutiveErrors : Nat
  consecutiveSuccesses : Nat
  responseTime : Option Int
deriving DecidableEq, Repr

/-- The initial per-domain state installed at startup. -/
def initState : HState :=
  { status := .unknown, lastCheck := none, lastError := none,
    consecutiveErrors := 0, consecutiveSuccesses := 0, responseTime := none }

/-- Slack notifications emitted by `checkDomain`: the first-failure alert,
the 5-consecutive-failures sustained alert, and the healthy-after-10 recovery
message. -/
inductive Notification where
  | alert (r : Reason)
  | sustained (r : Reason)
  | recovered
deriving DecidableEq, Repr

/-- The state-mutation and notification logic of `checkDomain`
(index.js lines 148-185): on success reset `consecutiveErrors`, increment
`consecutiveSuccesses`, clear `lastError`, and notify exactly when the
success counter equals 10; on failure reset `consecutiveSuccesses`,
increment `consecutiveErrors`, record the error, and notify exactly when
the failure counter equals 1 and again when it equals 5. -/
def updateState (s : HState) (c : Classification) (now rt : Int) :
    HState × List Notification :=
  match c with
  | .healthy =>
    let s' : HState :=
      { status := .healthy, lastCheck := some now, lastError := none,
        consecutiveErrors := 0,
        consecutiveSuccesses := s.consecutiveSuccesses + 1,
        responseTime := some rt }
    (s', if s'.consecutiveSuccesses = 10 then [.recovered] else [])
  | .unhealthy r =>
    let s' : HState :=
      { status := .unhealthy, lastCheck := some now, lastError := some r,
        consecutiveErrors := s.consecutiveErrors + 1,
        consecutiveSuccesses := 0,
        responseTime := some rt }
    (s', (if s'.consecutiveErrors = 1 then [.alert r] else []) ++
         (if s'.consecutiveErrors = 5 then [.sustained r] else []))

/-- Fold a sequence of check results (classification, time, response time)
through the per-domain state machine, starting from the initial state. -/
def runChecks (steps : List (Classification × Int × Int)) : HState :=
  steps.foldl (fun s p => (updateState s p.1 p.2.1 p.2.2).1) initState

/-! ## History entries and the retention store -/

/-- One in-memory history entry as produced by `addToHistory`:
`{timestamp: now.toISOString(), status}`, with the timestamp modelled as
epoch milliseconds. -/
structure Entry where
  timestamp : Int
  status : Status
deriving DecidableEq, Repr

/-- Thirty days in milliseconds (`30 * 24 * 60 * 60 * 1000`): the retention window used by
`addToHistory` and `loadDomainHistory` ("keep last 1 month"). -/
def retentionMs : Int := 30 * 24 * 60 * 60 * 1000

/-- The spec's `append(endpoint, sample)` contract realized by the source's
push-then-trim: push the sample onto the sequence, then keep only the
entries with `new Date(entry.timestamp) >= new Date(now - 30 days)` —
the filter pass covers the whole sequence, the just-pushed sample
included. `addToHistory` is this operation with the sample timestamped
`now`. -/
def appendSample (history : List Entry) (s : Entry) (now : Int) :
    List Entry :=
  (history ++ [s]).filter (fun e => decide (now - retentionMs ≤ e.timestamp))

/-- The function `addToHistory(domain, status)` (index.js lines 188-213) on the entry
list of one domain: push `{timestamp: now, status}` and trim the whole
sequence to the last 30 days. -/
def addToHistory (history : List Entry) (status : Status) (now : Int) :
    List Entry :=
  appendSample history { timestamp := now, status := status } now

/-! ## Persistence -/

/-- One JSON-parsed history entry as read back from disk: either field may
be absent (or falsy / unparseable), which `loadDomainHistory` filters out. -/
structure RawEntry where
  timestamp : Option Int
  status : Option Status
deriving DecidableEq, Repr

/-- Serialization of a well-formed in-memory entry: `JSON.stringify`
followed by `JSON.parse` yields the same two fields, both present. -/
def toRaw (e : Entry) : RawEntry :=
  { timestamp := some e.timestamp, status := some e.status }

/-- The state of the durable record for one domain: the file may be
missing, present but corrupt/unparseable (so that `JSON.parse` throws), or
present with a parseable list of entries. -/
inductive StoredRecord where
  | missing
  | corrupt
  | good (entries : List RawEntry)
deriving DecidableEq, Repr

/-- The function `saveDomainHistory(domain, history)` (index.js lines 78-87): writes
`JSON.stringify(history)` to the domain's file — no filtering on save. -/
def saveDomainHistory (history : List Entry) : StoredRecord :=
  .good (history.map toRaw)

/-- The per-entry validity test of `loadDomainHistory`:
`entry.timestamp && entry.status && new Date(entry.timestamp) >= oneMonthAgo`.
A missing (falsy) timestamp or status fails; otherwise the entry must be
within the last 30 days. -/
def entryValid (now : Int) (e : RawEntry) : Bool :=
  match e.timestamp, e.status with
  | some t, some _ => decide (now - retentionMs ≤ t)
  | _, _ => false

/-- The function `loadDomainHistory(domain)` (index.js lines 89-109): a missing file
returns `[]`, any read or parse error is caught and returns `[]`, and a
parseable record is filtered by `entryValid` before being returned. -/
def loadDomainHistory (r : StoredRecord) (now : Int) : List RawEntry :=
  match r with
  | .missing => []
  | .corrupt => []
  | .good es => es.filter (entryValid now)

/-! ## The fixed-window grid mapper -/

/-- The number (`24 * 60`) of one-minute slots in the 24-hour grid of
`generateHistoryPage`. -/
def minutesInDay : Int := 24 * 60

/-- The grid window in milliseconds: `minutesInDay * 60 * 1000`. -/
def windowMs : Int := minutesInDay * 60 * 1000

/-- One slot duration in milliseconds. -/
def slotMs : Int := 60 * 1000

/-- The real-valued slot quotient of `generateHistoryPage` (line 502):
`(entryTime - (now - minutesInDay * 60 * 1000)) / (60 * 1000)`. -/
def rawMinutes (t now : Int) : ℚ :=
  ((t : ℚ) - ((now : ℚ) - (minutesInDay : ℚ) * 60 * 1000)) / (60 * 1000)

/-- JavaScript `Math.round`: round half toward positive infinity. -/
def jsRound (x : ℚ) : Int := ⌊x + 1 / 2⌋

/-- The clamped slot index of `generateHistoryPage` (line 504):
`Math.max(0, Math.min(minutesInDay - 1, Math.round(rawMinutes)))`. -/
def minutesFromStart (t now : Int) : Int :=
  max 0 (min (minutesInDay - 1) (jsRound (rawMinutes t now)))

/-- One step of the grid fill loop (lines 499-510): compute the clamped
slot index and, after the redundant range guard, overwrite that slot's
status with the entry's status. -/
def gridStep (now : Int) (g : List Status) (e : Entry) : List Status :=
  let i := minutesFromStart e.timestamp now
  if 0 ≤ i ∧ i < minutesInDay then g.set i.toNat e.status else g

/-- The status sequence of the 24-hour grid built by `generateHistoryPage`
(lines 482-510): 1440 slots initialized to `unknown`, then each history
entry written at its clamped slot index in input order (last write wins). -/
def mapToGrid (history : List Entry) (now : Int) : List Status :=
  history.foldl (gridStep now) (List.replicate minutesInDay.toNat .unknown)

/-- The 30-day age test alone on a parsed entry (the age half of
`entryValid`, with a missing timestamp failing). -/
def ageOk (now : Int) (e : RawEntry) : Bool :=
  match e.timestamp with
  | some t => decide (now - retentionMs ≤ t)
  | none => false

/-! ## Helper lemmas -/

/-- The clamped slot index re-expressed with exact integer flooring
division, so that concrete instances are kernel-computable. -/
theorem minutesFromStart_eq (t now : Int) :
    minutesFromStart t now =
      max 0 (min 1439 ((2 * (t - now + 86400000) + 60000) / 120000)) := by
  have h : rawMinutes t now + 1 / 2
      = ((2 * (t - now + 86400000) + 60000 : Int) : ℚ) / ((120000 : ℕ) : ℚ) := by
    unfold rawMinutes minutesInDay
    push_cast
    ring
  unfold minutesFromStart jsRound minutesInDay
  rw [h, Rat.floor_intCast_div_natCast]
  norm_num

/-- The clamped slot index is always within the grid. -/
theorem minutesFromStart_bounds (t now : Int) :
    0 ≤ minutesFromStart t now ∧ minutesFromStart t now < minutesInDay := by
  rw [minutesFromStart_eq]
  unfold minutesInDay
  omega

/-- After either branch of one state update the two streak counters are
never both nonzero. -/
theorem updateState_excl (s : HState) (c : Classification) (now rt : Int) :
    (updateState s c now rt).1.consecutiveErrors = 0 ∨
    (updateState s c now rt).1.consecutiveSuccesses = 0 := by
  cases c <;> simp [updateState]

/-- The mutual-exclusion property is preserved by folding any sequence of
check results through the state machine. -/
theorem foldl_updateState_excl (steps : List (Classification × Int × Int)) :
    ∀ s : HState, s.consecutiveErrors = 0 ∨ s.consecutiveSuccesses = 0 →
      ((steps.foldl (fun s p => (updateState s p.1 p.2.1 p.2.2).1) s).consecutiveErrors = 0 ∨
       (steps.foldl (fun s p => (updateState s p.1 p.2.1 p.2.2).1) s).consecutiveSuccesses = 0) := by
  induction steps with
  | nil => intro s hs; exact hs
  | cons p ps ih =>
    intro s _
    exact ih _ (updateState_excl s p.1 p.2.1 p.2.2)

/-! ## Claim theorems -/

/-- C1 (amended): for a fixed history entry timestamp and two values of
`now` differing by less than half a slot duration, the clamped slot index
computed by the grid mapper differs by at most one slot between the two
invocations. (The original claim — that the two grids are identical — is
refuted by `grid_jitter_counterexample` below: a sample whose raw index
lies near a half-slot boundary shifts to the adjacent slot.) -/
theorem grid_jitter_slot_shift (t n₁ n₂ : Int) (h : |n₁ - n₂| < slotMs / 2) :
    |minutesFromStart t n₁ - minutesFromStart t n₂| ≤ 1 := by
  rw [minutesFromStart_eq, minutesFromStart_eq]
  unfold slotMs at h
  rw [abs_lt] at h
  rw [abs_le]
  constructor <;> omega

/-- Witness for `grid_jitter_slot_shift` at a concrete jitter of 20
seconds. -/
theorem grid_jitter_slot_shift_witness :
    |(86400000 : Int) - 86420000| < slotMs / 2 ∧
    |minutesFromStart 30000 86400000 - minutesFromStart 30000 86420000| ≤ 1 :=
  ⟨by decide, grid_jitter_slot_shift 30000 86400000 86420000 (by decide)⟩

/-- C1 counterexample: the same one-sample history mapped with two values
of `now` that differ by 20000 ms (less than half the 60000 ms slot) yields
two different grids — the sample lands in slot 1 for the first `now` and
in slot 0 for the second. -/
theorem grid_jitter_counterexample :
    |(86400000 : Int) - 86420000| < slotMs / 2 ∧
    mapToGrid [⟨30000, .healthy⟩] 86400000 ≠ mapToGrid [⟨30000, .healthy⟩] 86420000 := by
  constructor
  · decide
  · have h1 : mapToGrid [⟨30000, .healthy⟩] 86400000
        = (List.replicate 1440 .unknown).set 1 .healthy := by
      simp only [mapToGrid, List.foldl_cons, List.foldl_nil, gridStep, minutesFromStart_eq,
        minutesInDay]
      norm_num
      rfl
    have h2 : mapToGrid [⟨30000, .healthy⟩] 86420000
        = (List.replicate 1440 .unknown).set 0 .healthy := by
      simp only [mapToGrid, List.foldl_cons, List.foldl_nil, gridStep, minutesFromStart_eq,
        minutesInDay]
      norm_num
      rfl
    rw [h1, h2]
    decide

/-- C2: a sample timestamped exactly `now - windowDuration` gets slot
index 0, a sample timestamped exactly `now` gets slot index 1439
(`minutesInDay - 1`), every sample's clamped slot index is within
`[0, minutesInDay - 1]`, and the grid fill step therefore always performs
the write at that index (no out-of-bounds access and no dropped sample). -/
theorem grid_boundary (now : Int) :
    minutesFromStart (now - windowMs) now = 0 ∧
    minutesFromStart now now = minutesInDay - 1 ∧
    (∀ t : Int, 0 ≤ minutesFromStart t now ∧ minutesFromStart t now ≤ minutesInDay - 1) ∧
    (∀ (g : List Status) (e : Entry),
      gridStep now g e = g.set (minutesFromStart e.timestamp now).toNat e.status) := by
  refine ⟨?_, ?_, ?_, ?_⟩
  · rw [minutesFromStart_eq]
    unfold windowMs minutesInDay
    omega
  · rw [minutesFromStart_eq]
    unfold minutesInDay
    omega
  · intro t
    have h := minutesFromStart_bounds t now
    omega
  · intro g e
    unfold gridStep
    rw [if_pos (minutesFromStart_bounds e.timestamp now)]

/-- C3: with an HTTP status present, the check is classified unhealthy
with the `HTTP <status>` reason exactly when the status is below 200 or
above 399; any status in `[200, 399]` passes the status rule, and if the
response time is below the timeout threshold and the body does not contain
the PHP error marker the check is classified healthy. -/
theorem classify_accepted_range (timeoutMs statusCode responseTime : Int)
    (body : List Char) :
    (classify timeoutMs statusCode responseTime body
        = .unhealthy (.httpStatus statusCode) ↔
      statusCode < 200 ∨ 399 < statusCode) ∧
    (200 ≤ statusCode → statusCode ≤ 399 → responseTime < timeoutMs →
      listIncludes phpErrorMarker body = false →
      classify timeoutMs statusCode responseTime body = .healthy) := by
  constructor
  · constructor
    · intro hcl
      unfold classify at hcl
      split_ifs at hcl with h₁ h₂ h₃
      all_goals first | omega | simp at hcl
    · intro hrange
      unfold classify
      rw [if_pos (by omega)]
  · intro hlo hhi hrt hbody
    unfold classify
    rw [if_neg (by omega), if_neg (by omega), if_neg (by simp [hbody])]

/-- Witness for `classify_accepted_range`: HTTP 500 is rejected with the
`HTTP 500` reason, and a 301 redirect with a fast clean body is healthy. -/
theorem classify_accepted_range_witness :
    classify 10000 500 50 [] = .unhealthy (.httpStatus 500) ∧
    classify 10000 301 50 "ok".toList = .healthy :=
  ⟨(classify_accepted_range 10000 500 50 []).1.mpr (by decide),
   (classify_accepted_range 10000 301 50 "ok".toList).2
     (by decide) (by decide) (by decide) (by decide)⟩

/-- C4: one state update emits an alert notification exactly when it makes
the consecutive-failure counter equal 1, a sustained notification exactly
when it makes that counter equal 5, and a recovered notification exactly
when it makes the consecutive-success counter equal 10; an update with any
other counter value emits nothing. -/
theorem streak_triggers (s : HState) (c : Classification) (now rt : Int) :
    (∀ r : Reason, Notification.alert r ∈ (updateState s c now rt).2 ↔
        c = .unhealthy r ∧ (updateState s c now rt).1.consecutiveErrors = 1) ∧
    (∀ r : Reason, Notification.sustained r ∈ (updateState s c now rt).2 ↔
        c = .unhealthy r ∧ (updateState s c now rt).1.consecutiveErrors = 5) ∧
    (Notification.recovered ∈ (updateState s c now rt).2 ↔
        c = .healthy ∧ (updateState s c now rt).1.consecutiveSuccesses = 10) := by
  cases c with
  | healthy =>
    refine ⟨?_, ?_, ?_⟩
    · intro r
      simp only [updateState]
      split_ifs <;> simp
    · intro r
      simp only [updateState]
      split_ifs <;> simp
    · simp only [updateState]
      split_ifs with h <;> simp_all
  | unhealthy r₀ =>
    refine ⟨?_, ?_, ?_⟩
    · intro r
      simp only [updateState]
      split_ifs with h₁ h₂ h₃ <;> simp_all [eq_comm]
    · intro r
      simp only [updateState]
      split_ifs with h₁ h₂ h₃ <;> simp_all [eq_comm]
    · simp only [updateState]
      split_ifs <;> simp

/-- Witness for `streak_triggers`: the first failure from the initial
state emits the alert notification. -/
theorem streak_triggers_witness :
    Notification.alert .php ∈ (updateState initState (.unhealthy .php) 0 0).2 :=
  ((streak_triggers initState (.unhealthy .php) 0 0).1 .php).mpr ⟨rfl, by decide⟩

/-- C5: starting from the initial state (both counters 0), after any
sequence of health-check updates a positive consecutive-failure counter
forces the consecutive-success counter to 0 and vice versa — the two
counters are never simultaneously nonzero. -/
theorem streak_mutual_exclusion (steps : List (Classification × Int × Int)) :
    (0 < (runChecks steps).consecutiveErrors →
      (runChecks steps).consecutiveSuccesses = 0) ∧
    (0 < (runChecks steps).consecutiveSuccesses →
      (runChecks steps).consecutiveErrors = 0) := by
  have h := foldl_updateState_excl steps initState (Or.inl rfl)
  unfold runChecks
  constructor <;> (intro hpos; omega)

/-- Witness for `streak_mutual_exclusion`: after a single failing check
the failure counter is 1 and the success counter is 0. -/
theorem streak_mutual_exclusion_witness :
    0 < (runChecks [(.unhealthy .php, 0, 0)]).consecutiveErrors ∧
    (runChecks [(.unhealthy .php, 0, 0)]).consecutiveSuccesses = 0 :=
  ⟨by decide, (streak_mutual_exclusion [(.unhealthy .php, 0, 0)]).1 (by decide)⟩

/-- C6 counterexample: a sample whose timestamp (50) is already older
than the retention window at the time of append (now = retention + 100)
is NOT present in the in-memory history immediately after that append —
the same append's trim pass removes it, contradicting the claimed
delayed (next-append) trim. -/
theorem retention_delayed_trim_counterexample :
    (Entry.mk 50 .healthy).timestamp < 2592000100 - retentionMs ∧
    Entry.mk 50 .healthy ∉ appendSample [] (Entry.mk 50 .healthy) 2592000100 := by
  decide

/-- C6 (amended): appending a sample whose timestamp is already older
than the retention window at the time of append removes it in that same
append's trim pass — the sample is absent from the in-memory history
immediately after the append, and absent from any load performed at that
time or later. -/
theorem retention_immediate_trim (h : List Entry) (s : Entry) (now now₂ : Int)
    (hOld : s.timestamp < now - retentionMs) (hLater : now ≤ now₂) :
    s ∉ appendSample h s now ∧
    toRaw s ∉ loadDomainHistory (saveDomainHistory (appendSample h s now)) now₂ := by
  constructor
  · intro hmem
    unfold appendSample at hmem
    rw [List.mem_filter] at hmem
    have := of_decide_eq_true hmem.2
    omega
  · intro hmem
    unfold loadDomainHistory saveDomainHistory at hmem
    rw [List.mem_filter] at hmem
    have hv := hmem.2
    unfold entryValid toRaw at hv
    simp only [decide_eq_true_eq] at hv
    omega

/-- Witness for `retention_immediate_trim` at concrete inputs. -/
theorem retention_immediate_trim_witness :
    (Entry.mk 50 .unhealthy).timestamp < 2592000100 - retentionMs ∧
    Entry.mk 50 .unhealthy ∉ appendSample [] (Entry.mk 50 .unhealthy) 2592000100 :=
  ⟨by decide,
   (retention_immediate_trim [] (Entry.mk 50 .unhealthy) 2592000100 2592000100
     (by decide) (by decide)).1⟩

/-- C7: saving a history and loading it back yields exactly the original
history passed through the same 30-day age filter (up to the
field-preserving serialization `toRaw`). -/
theorem save_load_roundtrip (h : List Entry) (now : Int) :
    loadDomainHistory (saveDomainHistory h) now =
      (h.filter (fun e => decide (now - retentionMs ≤ e.timestamp))).map toRaw := by
  unfold loadDomainHistory saveDomainHistory
  induction h with
  | nil => rfl
  | cons e t ih =>
    by_cases hc : now - retentionMs ≤ e.timestamp
    · simp_all [entryValid, toRaw, List.filter_cons]
    · simp_all [entryValid, toRaw, List.filter_cons]

/-- C8: loading a missing or corrupt/unparseable record yields the empty
history, and loading a parseable record applies the validity-and-age
filter to it — in particular every returned entry passes the 30-day age
test. -/
theorem load_degrades_on_failure (now : Int) (raws : List RawEntry) :
    loadDomainHistory .missing now = [] ∧
    loadDomainHistory .corrupt now = [] ∧
    loadDomainHistory (.good raws) now = raws.filter (entryValid now) ∧
    (loadDomainHistory (.good raws) now).all (fun e => ageOk now e) = true := by
  refine ⟨rfl, rfl, rfl, ?_⟩
  rw [List.all_eq_true]
  intro e hmem
  unfold loadDomainHistory at hmem
  rw [List.mem_filter] at hmem
  have hv := hmem.2
  unfold entryValid at hv
  unfold ageOk
  cases ht : e.timestamp with
  | none => rw [ht] at hv; cases hs : e.status <;> simp_all
  | some t => rw [ht] at hv; cases hs : e.status <;> simp_all

/-- C9: an endpoint that starts in the initial (unknown) state and
succeeds ten times in a row emits the recovered notification on the tenth
successful update, even though no unhealthy state ever preceded the
streak. -/
theorem recovered_without_prior_unhealthy :
    initState.status = .unknown ∧
    (updateState (runChecks (List.replicate 9 (.healthy, 0, 0))) .healthy 0 0).2
      = [Notification.recovered] := by
  decide

/-- C10: every entry returned by loading a parseable record has both a
timestamp and a status present — entries with an absent field are
silently dropped by the load filter. -/
theorem load_drops_malformed_entries (raws : List RawEntry) (now : Int) :
    (loadDomainHistory (.good raws) now).all
      (fun e => e.timestamp.isSome && e.status.isSome) = true := by
  rw [List.all_eq_true]
  intro e hmem
  unfold loadDomainHistory at hmem
  rw [List.mem_filter] at hmem
  have hv := hmem.2
  unfold entryValid at hv
  cases ht : e.timestamp with
  | none => rw [ht] at hv; cases hs : e.status <;> simp_all
  | some t => rw [ht] at hv; cases hs : e.status <;> simp_all
